import Mathlib

/-!
Verification of the JobPostingScraper aggregation-and-diff engine.

Shallow embedding of `src/job_posting_fast_api/backend/scraper/core.py`
(`scrape_jobs`, `send_email`), the persistence step of
`src/job_posting_fast_api/backend/main.py` (`process_scrape`), and the
relevant helpers of `src/scripts/check_jobs.py`.

Modelling conventions:
* A Python dict-shaped job record is a structure of `Option String` fields;
  `none` means the key is absent or holds `None` (the code treats the two
  identically for every field except `id`, where `job["id"]` distinguishes
  a missing key, which raises `KeyError`, from a present `None` value; so
  `id` is `Option (Option String)`: outer = key presence, inner = value).
* Raising Python code is `Except String` (the message names the exception);
  a `.error` result is an aborted run, leaving the previous snapshot intact.
* Network fetches are injected as `Except String (List Job)` per descriptor:
  the raw upstream data of one run.
-/

namespace JobScraper

/-- A job record: the dict shape `core.py` manipulates. `none` = key absent
(or `None`-valued); for `id` the outer `Option` is key presence. -/
structure Job where
  id : Option (Option String) := none
  url : Option String := none
  jobOpeningName : Option String := none
  title : Option String := none
  source : Option String := none
  bulletFields : Option (List String) := none
  externalPath : Option String := none
  company : Option String := none
  companyName : Option String := none
  employmentStatus : Option String := none
  jobType : Option String := none
  link : Option String := none
  deriving Repr, DecidableEq

/-- A Workday source descriptor: the fields of `WORKDAY_SOURCES` entries
that `scrape_jobs` reads (`name`, `url_prefix`; endpoint/headers/payload are
consumed by the injected fetch). -/
structure WSrc where
  name : String
  urlPref : String
  deriving Repr, DecidableEq

/-- Python `x or y` over an optional string: `None` and `""` are falsy. -/
def pyOrS (a : Option String) (b : String) : String :=
  match a with
  | some s => if s = "" then b else s
  | none => b

/-- Python truthiness of an optional string (`None` and `""` are falsy). -/
def pyTruthy (a : Option String) : Bool :=
  match a with
  | some s => s ≠ ""
  | none => false

/-- Python `str(v)` for a value that may be `None` (f-string interpolation). -/
def pyStr (v : Option String) : String :=
  match v with
  | some s => s
  | none => "None"

/-- Python `s.startswith(pre)`. -/
def pyStartsWith (s pre : String) : Bool :=
  pre.data.isPrefixOf s.data

/-- Python `s.rstrip(chars)`: removes trailing characters that are members of
the character set `chars` (not a suffix!), as in `url.rstrip("/list")`. -/
def pyRstrip (s : String) (chars : String) : String :=
  ⟨(s.data.reverse.dropWhile (fun c => chars.data.contains c)).reverse⟩

/-- Contiguous-sublist test (Python `in` on strings, over character codes;
the empty pattern is a substring of everything). -/
def subIn (pat : List Nat) : List Nat → Bool
  | [] => pat.isEmpty
  | c :: rest => pat.isPrefixOf (c :: rest) || subIn pat rest

/-- Python `str.lower()` on one character code (the sources only ever filter
ASCII company names, so ASCII lowering is the relevant fragment). -/
def lowerCode (c : Char) : Nat :=
  if 65 ≤ c.toNat ∧ c.toNat ≤ 90 then c.toNat + 32 else c.toNat

/-- Case-insensitive substring test: `pat.lower() in s.lower()`. -/
def lowerInfix (pat s : String) : Bool :=
  subIn (pat.data.map lowerCode) (s.data.map lowerCode)

/-- BambooHR normalization, from `core.py` lines 116-117:
`job["url"]` is set to the f-string of `url.rstrip("/list")`, `"/careers/"`, and `job["id"]`.
`job["id"]` raises `KeyError` when the key is absent. -/
def normBamboo (endpoint : String) (j : Job) : Except String Job :=
  match j.id with
  | none => .error "KeyError: id"
  | some v => .ok { j with url := some (pyRstrip endpoint "/list" ++ "/careers/" ++ pyStr v) }

/-- Workday normalization, from `core.py` lines 124-130:
`job_id = job.get("bulletFields", [job.get("externalPath")])[0]` (raises
`IndexError` when `bulletFields` is present but empty), then the
`externalPath` prefixing conditional and `job["source"] = src["name"]`. -/
def normWorkday (src : WSrc) (j : Job) : Except String Job :=
  match j.bulletFields with
  | some [] => .error "IndexError: bulletFields"
  | some (x :: _) =>
    .ok { j with
      id := some (some x)
      externalPath :=
        if pyTruthy j.externalPath && !(pyStartsWith (j.externalPath.getD "") "http") then
          some (src.urlPref ++ j.externalPath.getD "")
        else j.externalPath
      source := some src.name }
  | none =>
    .ok { j with
      id := some j.externalPath
      externalPath :=
        if pyTruthy j.externalPath && !(pyStartsWith (j.externalPath.getD "") "http") then
          some (src.urlPref ++ j.externalPath.getD "")
        else j.externalPath
      source := some src.name }

/-- Third-party normalization, from `core.py` lines 137-138:
`job["source"] = src["name"]`; nothing else is touched, nothing can raise. -/
def normThird (srcName : String) (j : Job) : Job :=
  { j with source := some srcName }

/-- Map a raising normalizer over a fetched list, propagating the first
exception (the Python per-source `for job in jobs` loop). -/
def normList (f : Job → Except String Job) : List Job → Except String (List Job)
  | [] => .ok []
  | j :: rest =>
    match f j with
    | .error e => .error e
    | .ok j2 =>
      match normList f rest with
      | .error e => .error e
      | .ok rest2 => .ok (j2 :: rest2)

/-- The BambooHR phase of `scrape_jobs` (lines 113-118): fetch each endpoint
(an unhandled fetch failure aborts the run), normalize, and extend. -/
def gatherBamboo : List (String × Except String (List Job)) → Except String (List Job)
  | [] => .ok []
  | (endpoint, fetched) :: rest =>
    match fetched with
    | .error e => .error e
    | .ok jobs =>
      match normList (normBamboo endpoint) jobs with
      | .error e => .error e
      | .ok normed =>
        match gatherBamboo rest with
        | .error e => .error e
        | .ok tail => .ok (normed ++ tail)

/-- The Workday phase of `scrape_jobs` (lines 121-131). -/
def gatherWorkday : List (WSrc × Except String (List Job)) → Except String (List Job)
  | [] => .ok []
  | (src, fetched) :: rest =>
    match fetched with
    | .error e => .error e
    | .ok jobs =>
      match normList (normWorkday src) jobs with
      | .error e => .error e
      | .ok normed =>
        match gatherWorkday rest with
        | .error e => .error e
        | .ok tail => .ok (normed ++ tail)

/-- The third-party phase of `scrape_jobs` (lines 134-139). -/
def gatherThird : List (String × Except String (List Job)) → Except String (List Job)
  | [] => .ok []
  | (srcName, fetched) :: rest =>
    match fetched with
    | .error e => .error e
    | .ok jobs =>
      match gatherThird rest with
      | .error e => .error e
      | .ok tail => .ok (jobs.map (normThird srcName) ++ tail)

/-- The set `old_ids = {job["id"] for job in old_jobs if "id" in job}` (line 143):
the identity values (possibly `None`) of those records of the previous snapshot
that carry an `id` key. -/
def oldIdsOf (old : List Job) : List (Option String) :=
  old.filterMap (fun j => j.id)

/-- The comprehension `[j for j in jobs if j["id"] not in old_ids]` (lines 145-147):
`j["id"]` raises `KeyError` when a current record lacks the key. -/
def diffJobs (oldIds : List (Option String)) : List Job → Except String (List Job)
  | [] => .ok []
  | j :: rest =>
    match j.id with
    | none => .error "KeyError: id"
    | some v =>
      match diffJobs oldIds rest with
      | .error e => .error e
      | .ok tail => .ok (if oldIds.contains v then tail else j :: tail)

/-- The effective title field of the company filter (line 162):
`j.get("jobOpeningName") or j.get("title") or ""`. -/
def effTitle (j : Job) : String :=
  pyOrS j.jobOpeningName (pyOrS j.title "")

/-- The effective source field of the company filter (line 163):
`j.get("source") or ""`. -/
def effSource (j : Job) : String :=
  pyOrS j.source ""

/-- Company-filter test of one record (lines 161-163): case-insensitive
substring of the effective title OR of the source. -/
def matchesFilter (cf : String) (j : Job) : Bool :=
  lowerInfix cf (effTitle j) || lowerInfix cf (effSource j)

/-- The guard `if company_filter:` plus list comprehension (lines 159-164): `None` and
`""` are falsy, so they leave the list unchanged. -/
def applyCompanyFilter (cf : Option String) (jobs : List Job) : List Job :=
  match cf with
  | none => jobs
  | some s => if s = "" then jobs else jobs.filter (matchesFilter s)

/-- Function `send_email` of `core.py` (lines 57-108), as the value it returns:
with credentials missing it returns the three lists concatenated; otherwise
`all_new_jobs` accumulates each non-empty list (SMTP errors are caught, so
it never raises). The `companyFilter` parameter is accepted and unused,
exactly as in the source. -/
def sendEmail (emailFrom emailPassword : Option String)
    (newBamboo newWorkday newThird : List Job) (companyFilter : Option String) : List Job :=
  if ¬(pyTruthy emailFrom) ∨ ¬(pyTruthy emailPassword) then
    newBamboo ++ newWorkday ++ newThird
  else
    (if newBamboo.isEmpty then [] else newBamboo)
      ++ (if newWorkday.isEmpty then [] else newWorkday)
      ++ (if newThird.isEmpty then [] else newThird)

/-- What one successful `scrape_jobs` run produces: the value returned to
the caller, the snapshot written by `save_jobs` (line 150), and the value
`send_email` returned (line 153, discarded by the code). -/
structure RunOut where
  newJobs : List Job
  saved : List Job
  emailed : List Job
  deriving Repr, DecidableEq

/-- Function `scrape_jobs` of `core.py` (lines 111-166). The fetch results stand in
for the network; `oldJobs` is the content of `previous_jobs.json` that
`load_previous_jobs` reads; `emailFrom`/`emailPassword` are the environment.
An `.error` is an uncaught exception: the run aborts before `save_jobs`,
so the previous snapshot is untouched. -/
def scrape_jobs (bamboo : List (String × Except String (List Job)))
    (workday : List (WSrc × Except String (List Job)))
    (third : List (String × Except String (List Job)))
    (oldJobs : List Job) (companyFilter : Option String)
    (emailFrom emailPassword : Option String) : Except String RunOut :=
  match gatherBamboo bamboo with
  | .error e => .error e
  | .ok b =>
    match gatherWorkday workday with
    | .error e => .error e
    | .ok w =>
      match gatherThird third with
      | .error e => .error e
      | .ok t =>
        match diffJobs (oldIdsOf oldJobs) b with
        | .error e => .error e
        | .ok nb =>
          match diffJobs (oldIdsOf oldJobs) w with
          | .error e => .error e
          | .ok nw =>
            match diffJobs (oldIdsOf oldJobs) t with
            | .error e => .error e
            | .ok nt =>
              .ok { newJobs := applyCompanyFilter companyFilter (nb ++ nw ++ nt)
                    saved := b ++ w ++ t
                    emailed := sendEmail emailFrom emailPassword nb nw nt companyFilter }

/-- The per-record `setdefault` normalization of `process_scrape`
(`main.py` lines 103-106): defaults applied only when the key is absent. -/
def apiNormalize (companyFilter : Option String) (j : Job) : Job :=
  { j with
    title := some (match j.title with
      | some s => s
      | none => pyOrS j.jobOpeningName "No Title")
    url := some (match j.url with
      | some s => s
      | none => pyOrS j.externalPath "#")
    company := some (match j.company with
      | some s => s
      | none => pyOrS j.companyName (pyOrS companyFilter "Unknown"))
    jobType := some (match j.jobType with
      | some s => s
      | none => pyOrS j.employmentStatus "Not Specified") }

/-- Function `process_scrape` of `main.py` (lines 85-115), as the content of
`previous_jobs.json` when the task finishes: it runs `core.scrape_jobs`
(which saves the full set to that same file) and then overwrites the file
with the returned scrape result, `setdefault`-normalized (lines 110-115).
On an exception the file keeps whatever `scrape_jobs` left. -/
def process_scrape (bamboo : List (String × Except String (List Job)))
    (workday : List (WSrc × Except String (List Job)))
    (third : List (String × Except String (List Job)))
    (oldJobs : List Job) (companyFilter : Option String)
    (emailFrom emailPassword : Option String) : Except String (List Job) :=
  match scrape_jobs bamboo workday third oldJobs companyFilter emailFrom emailPassword with
  | .error e => .error e
  | .ok r => .ok (r.newJobs.map (apiNormalize companyFilter))

/-- Two consecutive runs through the API endpoint against the same upstream
raw data: the file `process_scrape` wrote is the snapshot the second run
loads. Returns the new-jobs result of the second run. -/
def twoApiRuns (bamboo : List (String × Except String (List Job)))
    (workday : List (WSrc × Except String (List Job)))
    (third : List (String × Except String (List Job)))
    (oldJobs : List Job) (companyFilter : Option String)
    (emailFrom emailPassword : Option String) : Except String (List Job) :=
  match process_scrape bamboo workday third oldJobs companyFilter emailFrom emailPassword with
  | .error e => .error e
  | .ok snap1 =>
    match scrape_jobs bamboo workday third snap1 companyFilter emailFrom emailPassword with
    | .error e => .error e
    | .ok r2 => .ok r2.newJobs

/-- Modelled from the spec: the claimed reading of the BambooHR deep-link
base — the descriptor endpoint with a trailing `/list` segment stripped and
nothing beyond that segment removed. Stated for comparison with the
code, which uses `url.rstrip("/list")`. -/
def specEndpointBase (endpoint : String) : String :=
  if ("/list".data).isSuffixOf endpoint.data then
    ⟨endpoint.data.take (endpoint.data.length - 5)⟩
  else endpoint

/-- The diff predicate of one record, for stating the diff characterization:
true when the record carries an `id` key whose value is not among the
previous identities. -/
def idAbsentFromOld (oldIds : List (Option String)) (j : Job) : Bool :=
  match j.id with
  | some v => !(oldIds.contains v)
  | none => false

/-- Module-level `EMAIL_FROM = os.environ["EMAIL_FROM"]` of
`src/scripts/check_jobs.py` (line 85): raises `KeyError` at import time when
the variable is unset, before any job logic runs. -/
def scriptEmailFrom (env : Option String) : Except String String :=
  match env with
  | none => .error "KeyError: EMAIL_FROM"
  | some s => .ok s

/-! Concrete records and source configurations used by the closed theorems
and witnesses below. -/

/-- A raw BambooHR record carrying only an id. -/
def bambooRaw42 : Job := { id := some (some "42") }

/-- A raw BambooHR record with an id and a role name. -/
def bambooRaw43 : Job := { id := some (some "43"), jobOpeningName := some "Engineer" }

/-- A previous-snapshot record whose identity is already known. -/
def prevSnap42 : Job := { id := some (some "42") }

/-- A BambooHR list-endpoint URL of the shape used in `job_sources.json`. -/
def acmeEndpoint : String := "https://acme.bamboohr.com/careers/list"

/-- One healthy BambooHR source whose fetch yields two records. -/
def oneSourceRun : List (String × Except String (List Job)) :=
  [(acmeEndpoint, .ok [bambooRaw42, bambooRaw43])]

/-- The record `bambooRaw42` after BambooHR normalization against
`acmeEndpoint` (note the deep link reads `career`, not `careers`, because
`rstrip` also ate the trailing `s`). -/
def normed42 : Job :=
  { id := some (some "42"), url := some "https://acme.bamboohr.com/career/careers/42" }

/-- The record `bambooRaw43` after BambooHR normalization against
`acmeEndpoint`. -/
def normed43 : Job :=
  { id := some (some "43"), jobOpeningName := some "Engineer",
    url := some "https://acme.bamboohr.com/career/careers/43" }

/-- The record `normed43` after the `setdefault` normalization that
`process_scrape` applies before persisting. -/
def apiPersisted43 : Job :=
  { id := some (some "43"), jobOpeningName := some "Engineer",
    url := some "https://acme.bamboohr.com/career/careers/43",
    title := some "Engineer", company := some "Unknown",
    jobType := some "Not Specified" }

/-- Two BambooHR sources, the first of which fails to fetch. -/
def failingRun : List (String × Except String (List Job)) :=
  [("https://one.example/careers/list", .error "FetchError: one.example"),
   ("https://two.example/careers/list", .ok [bambooRaw42])]

/-- A raw list-endpoint record without a raw id. -/
def noIdRaw : Job := { jobOpeningName := some "Mystery Role" }

/-- A Workday descriptor with the realistic `url_prefix` shape. -/
def wdSrcCiena : WSrc :=
  { name := "Ciena", urlPref := "https://ciena.wd5.myworkdayjobs.com/en-US/ciena" }

/-- A raw Workday record whose `externalPath` is the empty string. -/
def wdEmptyPath : Job := { bulletFields := some ["R123"], externalPath := some "" }

/-- What `normWorkday wdSrcCiena` makes of `wdEmptyPath`: the empty
`externalPath` is left unprefixed. -/
def wdEmptyPathOut : Job :=
  { bulletFields := some ["R123"], externalPath := some "",
    id := some (some "R123"), source := some "Ciena" }

/-- A raw Workday record with a relative `externalPath`, for the witness. -/
def wdRelPath : Job := { bulletFields := some ["R9"], externalPath := some "/job/123" }

/-- A job matching the filter string `ciena` by its source field. -/
def cienaJob : Job := { title := some "Engineer", source := some "Ciena" }

/-- A job matching no `ciena` filter. -/
def otherJob : Job := { title := some "Chef", source := some "Acme" }

/-- A new job from a company the filter `ciena` excludes. -/
def acmeNewJob : Job := { title := some "Dev", source := some "Acme" }

/-! Helper lemmas about the diff engine, shared by several theorems. -/

/-- The diff comprehension equals a pure filter whenever every current
record carries an `id` key. -/
theorem diffJobs_eq_filter (ids : List (Option String)) (l : List Job)
    (h : ∀ j ∈ l, (j.id).isSome = true) :
    diffJobs ids l = .ok (l.filter (idAbsentFromOld ids)) := by
  induction l with
  | nil => rfl
  | cons j rest ih =>
    obtain ⟨v, hv⟩ := Option.isSome_iff_exists.mp (h j (by simp))
    have hrest := ih (fun x hx => h x (by simp [hx]))
    cases hc : ids.contains v with
    | true => simp [diffJobs, hv, hrest, List.filter_cons, idAbsentFromOld, hc]
    | false => simp [diffJobs, hv, hrest, List.filter_cons, idAbsentFromOld, hc]

/-- A successful diff implies every current record carried an `id` key. -/
theorem diffJobs_ids_present (ids : List (Option String)) (l res : List Job)
    (h : diffJobs ids l = .ok res) : ∀ j ∈ l, (j.id).isSome = true := by
  induction l generalizing res with
  | nil => simp
  | cons j rest ih =>
    cases hid : j.id with
    | none => simp [diffJobs, hid] at h
    | some v =>
      cases hrec : diffJobs ids rest with
      | error e => simp [diffJobs, hid, hrec] at h
      | ok tail =>
        intro x hx
        rcases List.mem_cons.mp hx with hsame | hx2
        · simp [hsame, hid]
        · exact ih tail hrec x hx2

/-- Identity values of snapshot members are among the collected old ids. -/
theorem mem_oldIdsOf (l : List Job) (j : Job) (v : Option String)
    (hj : j ∈ l) (hv : j.id = some v) : v ∈ oldIdsOf l := by
  simp only [oldIdsOf, List.mem_filterMap]
  exact ⟨j, hj, hv⟩

/-- The diff is empty when every current identity is already known. -/
theorem diffJobs_all_known (ids : List (Option String)) (l : List Job)
    (h : ∀ j ∈ l, ∃ v, j.id = some v ∧ v ∈ ids) :
    diffJobs ids l = .ok [] := by
  induction l with
  | nil => rfl
  | cons j rest ih =>
    obtain ⟨v, hv, hc⟩ := h j (by simp)
    have hrest := ih (fun x hx => h x (by simp [hx]))
    simp [diffJobs, hv, hrest, hc]

/-- Filtering the empty list is the empty list, for any filter setting. -/
theorem applyCompanyFilter_nil (cf : Option String) :
    applyCompanyFilter cf [] = [] := by
  cases cf with
  | none => rfl
  | some s => simp [applyCompanyFilter]

/-- Rerunning `scrape_jobs` against the snapshot a first successful run
saved, with unchanged upstream data, yields no new jobs: the script flow
(`check_jobs.py` / direct `core.scrape_jobs` use) is idempotent. This is
the baseline the API wrapper then breaks by overwriting the snapshot. -/
theorem scrape_jobs_rerun_yields_no_new
    (bamboo : List (String × Except String (List Job)))
    (workday : List (WSrc × Except String (List Job)))
    (third : List (String × Except String (List Job)))
    (oldJobs : List Job) (cf emailFrom emailPassword : Option String)
    (b w t nb nw nt : List Job)
    (hb : gatherBamboo bamboo = .ok b)
    (hw : gatherWorkday workday = .ok w)
    (ht : gatherThird third = .ok t)
    (hdb : diffJobs (oldIdsOf oldJobs) b = .ok nb)
    (hdw : diffJobs (oldIdsOf oldJobs) w = .ok nw)
    (hdt : diffJobs (oldIdsOf oldJobs) t = .ok nt) :
    ∃ r2, scrape_jobs bamboo workday third (b ++ w ++ t) cf emailFrom emailPassword
        = .ok r2 ∧ r2.newJobs = [] := by
  have known : ∀ (l res : List Job),
      diffJobs (oldIdsOf oldJobs) l = .ok res → (∀ j ∈ l, j ∈ b ++ w ++ t) →
      diffJobs (oldIdsOf (b ++ w ++ t)) l = .ok [] := by
    intro l res hres hsub
    apply diffJobs_all_known
    intro j hj
    obtain ⟨v, hv⟩ := Option.isSome_iff_exists.mp (diffJobs_ids_present _ _ _ hres j hj)
    exact ⟨v, hv, mem_oldIdsOf _ _ _ (hsub j hj) hv⟩
  have hB := known b nb hdb (fun j hj => by simp [hj])
  have hW := known w nw hdw (fun j hj => by simp [hj])
  have hT := known t nt hdt (fun j hj => by simp [hj])
  refine ⟨{ newJobs := applyCompanyFilter cf ([] ++ [] ++ []),
            saved := b ++ w ++ t,
            emailed := sendEmail emailFrom emailPassword [] [] [] cf }, ?_, ?_⟩
  · simp only [scrape_jobs, hb, hw, ht, hB, hW, hT]
  · simp [applyCompanyFilter_nil]

/-! One theorem per claim. -/

/-- C1: the claim says the snapshot persisted at the end of every
successful run is the full freshly fetched set. The code violates it: the
API background task overwrites `previous_jobs.json` with the (filtered)
new-jobs result after `core.scrape_jobs` saved the full set, so a run over
previous snapshot `[42]` and fetched records `42, 43` leaves a 1-record
snapshot instead of the 2-record full set. -/
theorem C1_persisted_snapshot_not_full_set :
    process_scrape oneSourceRun [] [] [prevSnap42] none none none = .ok [apiPersisted43] ∧
    Except.map (fun r => r.saved)
      (scrape_jobs oneSourceRun [] [] [prevSnap42] none none none) = .ok [normed42, normed43] ∧
    [apiPersisted43] ≠ [normed42, normed43] := by
  refine ⟨rfl, rfl, by decide⟩

/-- C2 counterexample: a failing fetch for one descriptor does not produce
a degraded run with warnings — `scrape_jobs` has no handler, so the whole
run aborts with the fetch error and the healthy second source contributes
nothing. -/
theorem C2_fetch_failure_aborts_run :
    scrape_jobs failingRun [] [] [] none none none = .error "FetchError: one.example" := rfl

/-- A fetch failure anywhere among the BambooHR inputs makes the whole
BambooHR phase fail (with the first exception encountered on that path). -/
theorem gatherBamboo_error_of_failure
    (inputs : List (String × Except String (List Job)))
    (h : ∃ p ∈ inputs, ∃ e, p.2 = Except.error e) :
    ∃ e2, gatherBamboo inputs = .error e2 := by
  induction inputs with
  | nil => simp at h
  | cons q rest ih =>
    obtain ⟨endpoint, f⟩ := q
    obtain ⟨p, hp, e, he⟩ := h
    rcases List.mem_cons.mp hp with hq | hmem
    · subst hq
      simp only at he
      exact ⟨e, by simp [gatherBamboo, he]⟩
    · cases f with
      | error e2 => exact ⟨e2, by simp [gatherBamboo]⟩
      | ok jobs =>
        cases hn : normList (normBamboo endpoint) jobs with
        | error e2 => exact ⟨e2, by simp [gatherBamboo, hn]⟩
        | ok normed =>
          obtain ⟨e3, he3⟩ := ih ⟨p, hmem, e, he⟩
          exact ⟨e3, by simp [gatherBamboo, hn, he3]⟩

/-- A fetch failure anywhere among the Workday inputs makes the whole
Workday phase fail. -/
theorem gatherWorkday_error_of_failure
    (inputs : List (WSrc × Except String (List Job)))
    (h : ∃ p ∈ inputs, ∃ e, p.2 = Except.error e) :
    ∃ e2, gatherWorkday inputs = .error e2 := by
  induction inputs with
  | nil => simp at h
  | cons q rest ih =>
    obtain ⟨src, f⟩ := q
    obtain ⟨p, hp, e, he⟩ := h
    rcases List.mem_cons.mp hp with hq | hmem
    · subst hq
      simp only at he
      exact ⟨e, by simp [gatherWorkday, he]⟩
    · cases f with
      | error e2 => exact ⟨e2, by simp [gatherWorkday]⟩
      | ok jobs =>
        cases hn : normList (normWorkday src) jobs with
        | error e2 => exact ⟨e2, by simp [gatherWorkday, hn]⟩
        | ok normed =>
          obtain ⟨e3, he3⟩ := ih ⟨p, hmem, e, he⟩
          exact ⟨e3, by simp [gatherWorkday, hn, he3]⟩

/-- A fetch failure anywhere among the third-party inputs makes the whole
third-party phase fail. -/
theorem gatherThird_error_of_failure
    (inputs : List (String × Except String (List Job)))
    (h : ∃ p ∈ inputs, ∃ e, p.2 = Except.error e) :
    ∃ e2, gatherThird inputs = .error e2 := by
  induction inputs with
  | nil => simp at h
  | cons q rest ih =>
    obtain ⟨srcName, f⟩ := q
    obtain ⟨p, hp, e, he⟩ := h
    rcases List.mem_cons.mp hp with hq | hmem
    · subst hq
      simp only at he
      exact ⟨e, by simp [gatherThird, he]⟩
    · cases f with
      | error e2 => exact ⟨e2, by simp [gatherThird]⟩
      | ok jobs =>
        obtain ⟨e3, he3⟩ := ih ⟨p, hmem, e, he⟩
        exact ⟨e3, by simp [gatherThird, he3]⟩

/-- C2 amended: a fetch failure for any configured descriptor — at any
position, in any of the three source kinds — aborts the entire run:
`scrape_jobs` returns an error (the first exception encountered) instead of
completing with the remaining data; no results are returned, no warning
list exists, and the previous snapshot stays as the baseline because
`save_jobs` is never reached. -/
theorem C2_amended_fetch_failure_aborts
    (bamboo : List (String × Except String (List Job)))
    (workday : List (WSrc × Except String (List Job)))
    (third : List (String × Except String (List Job)))
    (oldJobs : List Job) (cf emailFrom emailPassword : Option String)
    (hfail : (∃ p ∈ bamboo, ∃ e, p.2 = Except.error e)
        ∨ (∃ p ∈ workday, ∃ e, p.2 = Except.error e)
        ∨ (∃ p ∈ third, ∃ e, p.2 = Except.error e)) :
    ∃ e, scrape_jobs bamboo workday third oldJobs cf emailFrom emailPassword
      = .error e := by
  rcases hfail with hB | hW | hT
  · obtain ⟨e, he⟩ := gatherBamboo_error_of_failure bamboo hB
    exact ⟨e, by simp [scrape_jobs, he]⟩
  · obtain ⟨e, he⟩ := gatherWorkday_error_of_failure workday hW
    cases hb : gatherBamboo bamboo with
    | error e2 => exact ⟨e2, by simp [scrape_jobs, hb]⟩
    | ok b => exact ⟨e, by simp [scrape_jobs, hb, he]⟩
  · obtain ⟨e, he⟩ := gatherThird_error_of_failure third hT
    cases hb : gatherBamboo bamboo with
    | error e2 => exact ⟨e2, by simp [scrape_jobs, hb]⟩
    | ok b =>
      cases hw : gatherWorkday workday with
      | error e2 => exact ⟨e2, by simp [scrape_jobs, hb, hw]⟩
      | ok w => exact ⟨e, by simp [scrape_jobs, hb, hw, he]⟩

/-- C2 amended, witness: a failing Workday descriptor beside a healthy
BambooHR source aborts the run. -/
theorem C2_amended_witness :
    (∃ p ∈ [(wdSrcCiena, (Except.error "FetchError: ciena" : Except String (List Job)))],
        ∃ e, p.2 = Except.error e) ∧
    ∃ e, scrape_jobs oneSourceRun
        [(wdSrcCiena, Except.error "FetchError: ciena")] [] [] none none none
      = .error e :=
  ⟨⟨(wdSrcCiena, Except.error "FetchError: ciena"), by simp, "FetchError: ciena", rfl⟩,
   C2_amended_fetch_failure_aborts oneSourceRun
     [(wdSrcCiena, Except.error "FetchError: ciena")] [] [] none none none
     (Or.inr (Or.inl ⟨(wdSrcCiena, Except.error "FetchError: ciena"),
       by simp, "FetchError: ciena", rfl⟩))⟩

/-- C3 counterexample: normalization is not total — a list-endpoint record
without a raw `id` raises `KeyError` inside `scrape_jobs` and the run
aborts, contradicting the claim that no run aborts over a missing field. -/
theorem C3_missing_id_aborts_run :
    scrape_jobs [("https://three.example/careers/list", .ok [noIdRaw])] [] [] [] none none none
      = .error "KeyError: id" := rfl

/-- C3 amended: normalization can raise. A list-endpoint record without a
raw `id` raises `KeyError`; a query-endpoint record whose `bulletFields`
array is present but empty raises `IndexError`; and a record without an
`id` key raises `KeyError` at diff time — each aborts the run. -/
theorem C3_amended_normalization_raises (endpoint : String) (src : WSrc)
    (j1 j2 j3 : Job) (oldIds : List (Option String)) (rest : List Job)
    (h1 : j1.id = none) (h2 : j2.bulletFields = some [])
    (h3 : j3.id = none) :
    normBamboo endpoint j1 = .error "KeyError: id" ∧
    normWorkday src j2 = .error "IndexError: bulletFields" ∧
    diffJobs oldIds (j3 :: rest) = .error "KeyError: id" := by
  refine ⟨?_, ?_, ?_⟩
  · simp [normBamboo, h1]
  · simp [normWorkday, h2]
  · simp [diffJobs, h3]

/-- C3 amended, witness at concrete degenerate records. -/
theorem C3_amended_witness :
    normBamboo "https://w.example/careers/list" { jobOpeningName := some "X" }
      = .error "KeyError: id" ∧
    normWorkday ⟨"W", "https://w.example"⟩ { bulletFields := some [] }
      = .error "IndexError: bulletFields" ∧
    diffJobs [] [{ title := some "T" }] = .error "KeyError: id" :=
  C3_amended_normalization_raises "https://w.example/careers/list"
    ⟨"W", "https://w.example"⟩ { jobOpeningName := some "X" }
    { bulletFields := some [] } { title := some "T" } [] [] rfl rfl rfl

/-- C4: over current records that all carry an `id` key, the diff equals
the pure filter keeping exactly the records whose identity is absent from
the identities of the previous snapshot; it is order-preserving (a sublist
of the current set); and membership is characterized exactly. Determinism
is definitional: the embedded diff is a pure function of its two inputs. -/
theorem C4_diff_exact_ordered (cur oldJobs : List Job)
    (h : ∀ j ∈ cur, (j.id).isSome = true) :
    diffJobs (oldIdsOf oldJobs) cur
      = .ok (cur.filter (idAbsentFromOld (oldIdsOf oldJobs))) ∧
    (cur.filter (idAbsentFromOld (oldIdsOf oldJobs))).Sublist cur ∧
    ∀ j, j ∈ cur.filter (idAbsentFromOld (oldIdsOf oldJobs)) ↔
      (j ∈ cur ∧ ∀ v, j.id = some v → v ∉ oldIdsOf oldJobs) := by
  refine ⟨diffJobs_eq_filter _ _ h, List.filter_sublist _, ?_⟩
  intro j
  constructor
  · intro hj
    have hm := List.mem_filter.mp hj
    refine ⟨hm.1, ?_⟩
    intro v hv
    have hb := hm.2
    simp [idAbsentFromOld, hv] at hb
    exact hb
  · rintro ⟨hmem, hids⟩
    refine List.mem_filter.mpr ⟨hmem, ?_⟩
    obtain ⟨v, hv⟩ := Option.isSome_iff_exists.mp (h j hmem)
    simp [idAbsentFromOld, hv, hids v hv]

/-- C4 witness: the diff of the two-record current set against the
snapshot holding identity 42 keeps exactly the 43 record. -/
theorem C4_diff_witness :
    (∀ j ∈ [normed42, normed43], (j.id).isSome = true) ∧
    diffJobs (oldIdsOf [prevSnap42]) [normed42, normed43]
      = .ok ([normed42, normed43].filter (idAbsentFromOld (oldIdsOf [prevSnap42]))) :=
  ⟨by decide, (C4_diff_exact_ordered [normed42, normed43] [prevSnap42] (by decide)).1⟩

/-- C5: with an absent filter the new set is returned unchanged; with a
present non-empty filter string, exactly the records whose effective title
(`jobOpeningName` falling back to `title`, the canonical title resolution)
or source contains the filter as a case-insensitive substring are kept. -/
theorem C5_filter_semantics (jobs : List Job) (f : String) (hf : f ≠ "") :
    applyCompanyFilter none jobs = jobs ∧
    ∀ j, j ∈ applyCompanyFilter (some f) jobs ↔
      (j ∈ jobs ∧ (lowerInfix f (effTitle j) = true ∨ lowerInfix f (effSource j) = true)) := by
  refine ⟨rfl, ?_⟩
  intro j
  simp [applyCompanyFilter, hf, List.mem_filter, matchesFilter]

/-- C5 witness: the filter string `ciena` keeps the Ciena-sourced job, and
the absent filter returns the list unchanged. -/
theorem C5_filter_witness :
    ("ciena" ≠ "") ∧
    applyCompanyFilter none [cienaJob, otherJob] = [cienaJob, otherJob] ∧
    cienaJob ∈ applyCompanyFilter (some "ciena") [cienaJob, otherJob] :=
  ⟨by decide,
   (C5_filter_semantics [cienaJob, otherJob] "ciena" (by decide)).1,
   ((C5_filter_semantics [cienaJob, otherJob] "ciena" (by decide)).2 cienaJob).mpr
     ⟨by simp, by decide⟩⟩

/-- C6: the claim says the deep link base is the endpoint with a trailing
`/list` segment stripped and nothing more. The code instead calls
`rstrip("/list")`, which strips the trailing character set, also eating the
final `s` of `careers`: on the real endpoint shape the produced link reads
`career/careers/42`, not the claimed `careers/careers/42`. -/
theorem C6_rstrip_divergence :
    normBamboo "https://solace.bamboohr.com/careers/list" { id := some (some "42") } =
      .ok { id := some (some "42"),
            url := some "https://solace.bamboohr.com/career/careers/42" } ∧
    specEndpointBase "https://solace.bamboohr.com/careers/list" ++ "/careers/" ++ "42" =
      "https://solace.bamboohr.com/careers/careers/42" ∧
    "https://solace.bamboohr.com/career/careers/42" ≠
      "https://solace.bamboohr.com/careers/careers/42" := by
  refine ⟨rfl, by decide, by decide⟩

/-- C7 counterexample: an empty-string `externalPath` is not an absolute
URL, so the claim demands it be prefixed with the `urlPrefix`; the code
leaves it unchanged (Python truthiness guards the prefixing), so the
normalized record diverges from the claimed value. -/
theorem C7_empty_externalPath_not_prefixed :
    normWorkday wdSrcCiena wdEmptyPath = .ok wdEmptyPathOut ∧
    pyStartsWith "" "http" = false ∧
    wdEmptyPathOut.externalPath ≠ some (wdSrcCiena.urlPref ++ "") := by
  refine ⟨rfl, rfl, by decide⟩

/-- C7 amended: for a query-endpoint record whose `bulletFields` is not
present-but-empty, the identity is the first `bulletFields` element when
the array is present, else the raw `externalPath`; the `externalPath` is
prefixed with the `urlPrefix` only when it is present, non-empty and not
already starting with `http`, and is left unchanged otherwise (absolute,
absent or empty). -/
theorem C7_amended_identity_and_link (src : WSrc) (j : Job)
    (hbf : j.bulletFields ≠ some []) :
    (∀ x xs, j.bulletFields = some (x :: xs) →
      Except.map (fun r => r.id) (normWorkday src j) = .ok (some (some x))) ∧
    (j.bulletFields = none →
      Except.map (fun r => r.id) (normWorkday src j) = .ok (some j.externalPath)) ∧
    (∀ e, j.externalPath = some e → e ≠ "" → pyStartsWith e "http" = false →
      Except.map (fun r => r.externalPath) (normWorkday src j)
        = .ok (some (src.urlPref ++ e))) ∧
    (∀ e, j.externalPath = some e → pyStartsWith e "http" = true →
      Except.map (fun r => r.externalPath) (normWorkday src j) = .ok (some e)) ∧
    ((j.externalPath = none ∨ j.externalPath = some "") →
      Except.map (fun r => r.externalPath) (normWorkday src j) = .ok j.externalPath) := by
  cases hb : j.bulletFields with
  | none =>
    refine ⟨?_, ?_, ?_, ?_, ?_⟩
    · intro x xs hx
      simp at hx
    · intro _
      simp [normWorkday, hb, Except.map]
    · intro e he hne hh
      simp [normWorkday, hb, he, pyTruthy, hne, hh, Except.map]
    · intro e he hh
      simp [normWorkday, hb, he, pyTruthy, hh, Except.map]
    · rintro (he | he) <;> simp [normWorkday, hb, he, pyTruthy, Except.map]
  | some l =>
    cases l with
    | nil => exact absurd hb hbf
    | cons x xs =>
      refine ⟨?_, ?_, ?_, ?_, ?_⟩
      · intro x2 xs2 hx
        obtain ⟨hx1, -⟩ : x = x2 ∧ xs = xs2 := by simpa using hx
        subst hx1
        simp [normWorkday, hb, Except.map]
      · intro hx
        simp at hx
      · intro e he hne hh
        simp [normWorkday, hb, he, pyTruthy, hne, hh, Except.map]
      · intro e he hh
        simp [normWorkday, hb, he, pyTruthy, hh, Except.map]
      · rintro (he | he) <;> simp [normWorkday, hb, he, pyTruthy, Except.map]

/-- C7 amended, witness: a record with `bulletFields = [R9]` and relative
`externalPath /job/123` gets identity R9 and the prefixed deep link. -/
theorem C7_amended_witness :
    wdRelPath.bulletFields ≠ some [] ∧
    Except.map (fun r => r.id) (normWorkday wdSrcCiena wdRelPath)
      = .ok (some (some "R9")) ∧
    Except.map (fun r => r.externalPath) (normWorkday wdSrcCiena wdRelPath)
      = .ok (some (wdSrcCiena.urlPref ++ "/job/123")) :=
  ⟨by decide,
   (C7_amended_identity_and_link wdSrcCiena wdRelPath (by decide)).1 "R9" [] rfl,
   (C7_amended_identity_and_link wdSrcCiena wdRelPath (by decide)).2.2.1 "/job/123"
     rfl (by decide) (by decide)⟩

/-- C8: the claim says a second run over unchanged upstream data yields an
empty new set. Through the API task this fails: the first run persists only
the new-jobs result, so the second run no longer sees identity 42 in its
baseline and reports the 42 record as new again. -/
theorem C8_second_api_run_not_empty :
    twoApiRuns oneSourceRun [] [] [prevSnap42] none none none = .ok [normed42] ∧
    [normed42] ≠ ([] : List Job) := by
  refine ⟨rfl, by decide⟩

/-- C9 counterexample: with credentials absent and a filter that excludes
the only new job, `send_email` still returns that job — the returned set is
not the post-filter eligible set (which is empty). -/
theorem C9_filter_not_applied :
    sendEmail none none [acmeNewJob] [] [] (some "ciena") = [acmeNewJob] ∧
    applyCompanyFilter (some "ciena") [acmeNewJob] = [] := by
  refine ⟨rfl, by decide⟩

/-- C9 amended: the notification step never raises — with or without
credentials it returns the three new-jobs lists concatenated, ignoring the
company filter entirely; and the standalone script variant instead raises
`KeyError` at module load when `EMAIL_FROM` is unset. -/
theorem C9_amended_returns_unfiltered (emailFrom emailPassword : Option String)
    (b w t : List Job) (cf : Option String) :
    sendEmail emailFrom emailPassword b w t cf = b ++ w ++ t ∧
    scriptEmailFrom none = .error "KeyError: EMAIL_FROM" := by
  refine ⟨?_, rfl⟩
  unfold sendEmail
  split
  · rfl
  · cases b <;> cases w <;> cases t <;> simp

/-- C10: the empty-string company filter is falsy in the guard
`if company_filter:`, so `scrape_jobs` behaves exactly as with no filter. -/
theorem C10_empty_filter_identity
    (bamboo : List (String × Except String (List Job)))
    (workday : List (WSrc × Except String (List Job)))
    (third : List (String × Except String (List Job)))
    (oldJobs : List Job) (emailFrom emailPassword : Option String) :
    scrape_jobs bamboo workday third oldJobs (some "") emailFrom emailPassword =
      scrape_jobs bamboo workday third oldJobs none emailFrom emailPassword := by
  unfold scrape_jobs
  cases gatherBamboo bamboo with
  | error e => rfl
  | ok b =>
    cases gatherWorkday workday with
    | error e => rfl
    | ok w =>
      cases gatherThird third with
      | error e => rfl
      | ok t =>
        cases diffJobs (oldIdsOf oldJobs) b with
        | error e => rfl
        | ok nb =>
          cases diffJobs (oldIdsOf oldJobs) w with
          | error e => rfl
          | ok nw =>
            cases diffJobs (oldIdsOf oldJobs) t with
            | error e => rfl
            | ok nt => simp [applyCompanyFilter, sendEmail]

end JobScraper
